import Mathlib

/-!
Shallow embedding of the antiplag comparison and submission-processing
pipeline (`src/antiplag/tasks.py`, with the data model of
`src/antiplag/models.py`).  External collaborators (Elastic search,
the text-comparison engine, text extraction, language detection,
preprocessing, mail) are modelled as function parameters; a fallible
collaborator returns an `Option` (`none` models a raised exception).
Similarity scores are modelled as rationals.
-/

namespace Antiplag

/-- Submission status machine, from `SubmissionStatus` choices in the model. -/
inductive SubmissionStatus | PENDING | PROCESSING | PROCESSED
deriving DecidableEq, Repr

/-- Numeric rank of a status along the PENDING → PROCESSING → PROCESSED order. -/
def SubmissionStatus.rank : SubmissionStatus → Nat
  | .PENDING => 0
  | .PROCESSING => 1
  | .PROCESSED => 2

/-- Document type, from `Document.DocumentType` choices. -/
inductive DocumentType | FILE | TEXT
deriving DecidableEq, Repr

/-- Match type of a Result row (`MatchType` enum used by `tasks.py`). -/
inductive MatchType | CORPUS | UPLOADED
deriving DecidableEq, Repr

/-- A match identifier: either an elastic corpus id or a sibling document id
(the Python code stores either dynamically in the same `match_id` column). -/
inductive MatchId
  | corpusId (s : String)
  | docId (n : Nat)
deriving DecidableEq, Repr

/-- A Document record.  Fields `file`, `name`, `text`, `text_raw`, `type`
(here `dtype`), `language` are from `models.py`; `total_percentage`
(aggregate similarity percentage, written by `compare_documents`) is
modelled from the spec: the snapshot of `models.py` omits the column the
task writes. -/
structure Document where
  id : Nat
  name : String
  dtype : DocumentType
  file : String
  text_raw : String
  text : String
  language : Option String
  total_percentage : Option ℚ
deriving DecidableEq, Repr

/-- A Submission record.  `status` is from `models.py`; `email` (optional
contact address) and `documents` (the owned documents relation used via
`submission.documents.all()`) are modelled from the spec: the snapshot of
`models.py` omits them although `tasks.py` reads both. -/
structure Submission where
  id : Nat
  status : SubmissionStatus
  email : Option String
  documents : List Document
deriving DecidableEq, Repr

/-- One direction of a text-comparison output
(`similarity["first_to_second"]`): a similarity score and the matched
intervals on the first text's side. -/
structure DirectionResult where
  similarity : ℚ
  intervals : List (Nat × Nat)
deriving DecidableEq, Repr

/-- Output of the similarity engine; `tasks.py` only reads the
`first_to_second` direction. -/
structure ComparisonOutput where
  first_to_second : DirectionResult
deriving DecidableEq, Repr

/-- A corpus candidate returned by `Elastic.find_similar`:
`tasks.py` reads keys `elastic_id`, `name`, `text_preprocessed`. -/
structure CorpusDoc where
  elastic_id : String
  name : String
  text_preprocessed : String
deriving DecidableEq, Repr

/-- A Result record as created by `doc.results.create(...)` in
`compare_documents`.  Modelled from the spec for the field list: the
snapshot of `models.py` carries a stale `Result` schema, while the task
passes exactly these fields. -/
structure Result where
  match_type : MatchType
  match_id : MatchId
  match_name : String
  percentage : ℚ
  ranges : List (Nat × Nat)
deriving DecidableEq, Repr

/-- External collaborators of `compare_documents`: the corpus search
(`Elastic.find_similar`) and the similarity engine (`text_comparison`,
`none` models a raised exception for that pair). -/
structure CompareEnv where
  find_similar : String → Nat → List CorpusDoc
  text_comparison : String → String → Option ComparisonOutput

/-- `ceil(x * factor) / factor`: the rounding-up used for percentages and
for the stored total. -/
def ceilRound (x factor : ℚ) : ℚ := (⌈x * factor⌉ : ℚ) / factor

/-- Accumulator of the per-document comparison loops:
`result_similarity`, `compared_count`, and the Results created so far. -/
structure LoopState where
  result_similarity : ℚ
  compared_count : Nat
  results : List Result
deriving DecidableEq, Repr

/-- The Result built for an above-threshold corpus candidate. -/
def corpusResultOf (round_factor : ℚ) (similar_doc : CorpusDoc)
    (sim : ComparisonOutput) : Result :=
  { match_type := MatchType.CORPUS
  , match_id := MatchId.corpusId similar_doc.elastic_id
  , match_name := similar_doc.name
  , percentage := ceilRound sim.first_to_second.similarity round_factor
  , ranges := sim.first_to_second.intervals }

/-- The Result built for an above-threshold sibling (user-uploaded) document. -/
def userResultOf (round_factor : ℚ) (user_doc : Document)
    (sim : ComparisonOutput) : Result :=
  { match_type := MatchType.UPLOADED
  , match_id := MatchId.docId user_doc.id
  , match_name := user_doc.name
  , percentage := ceilRound sim.first_to_second.similarity round_factor
  , ranges := sim.first_to_second.intervals }

/-- One iteration of the corpus-candidate loop of `compare_documents`:
on engine failure the pair is skipped (`continue`); on success the score
is added to the sum, and if it strictly exceeds the threshold the count
is incremented and a CORPUS Result is created. -/
def corpusStep (env : CompareEnv) (threshold round_factor : ℚ) (doc : Document)
    (st : LoopState) (similar_doc : CorpusDoc) : LoopState :=
  match env.text_comparison doc.text similar_doc.text_preprocessed with
  | none => st
  | some sim =>
    let st1 : LoopState :=
      { st with result_similarity :=
          st.result_similarity + sim.first_to_second.similarity }
    if sim.first_to_second.similarity > threshold then
      { st1 with compared_count := st1.compared_count + 1
               , results := st1.results ++ [corpusResultOf round_factor similar_doc sim] }
    else st1

/-- One iteration of the sibling loop of `compare_documents`; identical to
`corpusStep` but comparing against `user_doc.text` and creating an
UPLOADED Result with the sibling's id and name. -/
def userStep (env : CompareEnv) (threshold round_factor : ℚ) (doc : Document)
    (st : LoopState) (user_doc : Document) : LoopState :=
  match env.text_comparison doc.text user_doc.text with
  | none => st
  | some sim =>
    let st1 : LoopState :=
      { st with result_similarity :=
          st.result_similarity + sim.first_to_second.similarity }
    if sim.first_to_second.similarity > threshold then
      { st1 with compared_count := st1.compared_count + 1
               , results := st1.results ++ [userResultOf round_factor user_doc sim] }
    else st1

/-- `user_documents = list(documents); user_documents.remove(doc)`:
removes the first element equal to `doc`.  Django model equality is
primary-key equality, so removal compares ids. -/
def removeFirst (docs : List Document) (d : Document) : List Document :=
  match docs with
  | [] => []
  | x :: xs => if x.id = d.id then xs else x :: removeFirst xs d

/-- Outcome of `compare_documents` for one document: the created Results
and the stored `total_percentage`. -/
structure DocCompareOutcome where
  results : List Result
  total_percentage : ℚ
deriving DecidableEq, Repr

/-- Core of the per-document body of `compare_documents`, parameterized by
the already-fetched candidate list and sibling pool: run both loops from
the zero accumulator, divide the sum by the count only when the count is
positive, and round the total up. -/
def compareCore (env : CompareEnv) (threshold round_factor : ℚ) (doc : Document)
    (candidates : List CorpusDoc) (pool : List Document) : DocCompareOutcome :=
  let st1 := candidates.foldl (corpusStep env threshold round_factor doc)
    ⟨0, 0, []⟩
  let st2 := pool.foldl (userStep env threshold round_factor doc) st1
  let result_similarity :=
    if st2.compared_count > 0 then
      st2.result_similarity / (st2.compared_count : ℚ)
    else st2.result_similarity
  ⟨st2.results, ceilRound result_similarity round_factor⟩

/-- The per-document body of `compare_documents`: fetch corpus candidates
for `doc.text`, build the sibling pool by removing `doc` from the batch,
then run `compareCore`. -/
def compareDoc (env : CompareEnv) (threshold : ℚ) (similar_count : Nat)
    (round_factor : ℚ) (documents : List Document) (doc : Document) :
    DocCompareOutcome :=
  compareCore env threshold round_factor doc
    (env.find_similar doc.text similar_count)
    (removeFirst documents doc)

/-- `compare_documents(documents, threshold, similar_count,
round_decimal_places)`: for each document of the batch run the comparison
body and save the rounded total on the document.  Returns, per document,
the saved document and its outcome. -/
def compare_documents (env : CompareEnv) (threshold : ℚ)
    (similar_count round_decimal_places : Nat) (documents : List Document) :
    List (Document × DocCompareOutcome) :=
  let round_factor : ℚ := (10 : ℚ) ^ round_decimal_places
  documents.map (fun doc =>
    let oc := compareDoc env threshold similar_count round_factor documents doc
    ({ doc with total_percentage := some oc.total_percentage }, oc))

/-- The comparison outputs successfully scored for `doc` against the
corpus candidate list, in order (failed pairs dropped). -/
def corpusScores (env : CompareEnv) (doc : Document)
    (candidates : List CorpusDoc) : List ComparisonOutput :=
  candidates.filterMap (fun c => env.text_comparison doc.text c.text_preprocessed)

/-- The comparison outputs successfully scored for `doc` against the
sibling pool, in order (failed pairs dropped). -/
def siblingScores (env : CompareEnv) (doc : Document)
    (pool : List Document) : List ComparisonOutput :=
  pool.filterMap (fun u => env.text_comparison doc.text u.text)

/-- The similarity score each successfully-scored pair contributes. -/
def scoresOf (l : List ComparisonOutput) : List ℚ :=
  l.map (fun o => o.first_to_second.similarity)

/-- Numerator of the aggregate: the sum of the scores of all
successfully-scored pairs, corpus candidates first, then siblings. -/
def docSimilaritySum (env : CompareEnv) (doc : Document)
    (candidates : List CorpusDoc) (pool : List Document) : ℚ :=
  (scoresOf (corpusScores env doc candidates)).sum
    + (scoresOf (siblingScores env doc pool)).sum

/-- Number of scores in `l` strictly above the threshold. -/
def matchCount (threshold : ℚ) (l : List ℚ) : Nat :=
  l.countP (fun s => decide (s > threshold))

/-- Denominator of the aggregate: the count of successfully-scored pairs
whose score strictly exceeds the threshold. -/
def docMatchCount (env : CompareEnv) (threshold : ℚ) (doc : Document)
    (candidates : List CorpusDoc) (pool : List Document) : Nat :=
  matchCount threshold (scoresOf (corpusScores env doc candidates))
    + matchCount threshold (scoresOf (siblingScores env doc pool))

/-- The CORPUS Results the loop is expected to create: one per
successfully-scored candidate whose score strictly exceeds the threshold,
in candidate order. -/
def expectedCorpusResults (env : CompareEnv) (threshold round_factor : ℚ)
    (doc : Document) (candidates : List CorpusDoc) : List Result :=
  candidates.filterMap (fun c =>
    match env.text_comparison doc.text c.text_preprocessed with
    | none => none
    | some sim =>
      if sim.first_to_second.similarity > threshold then
        some (corpusResultOf round_factor c sim)
      else none)

/-- The UPLOADED Results the loop is expected to create: one per
successfully-scored sibling whose score strictly exceeds the threshold,
in pool order. -/
def expectedUserResults (env : CompareEnv) (threshold round_factor : ℚ)
    (doc : Document) (pool : List Document) : List Result :=
  pool.filterMap (fun u =>
    match env.text_comparison doc.text u.text with
    | none => none
    | some sim =>
      if sim.first_to_second.similarity > threshold then
        some (userResultOf round_factor u sim)
      else none)

/-- Average as the code computes it for one document, before rounding:
the sum over all scored pairs, divided by the above-threshold count only
when that count is positive. -/
def codeAverage (env : CompareEnv) (threshold : ℚ) (similar_count : Nat)
    (docs : List Document) (doc : Document) : ℚ :=
  let cands := env.find_similar doc.text similar_count
  let pool := removeFirst docs doc
  if docMatchCount env threshold doc cands pool > 0 then
    docSimilaritySum env doc cands pool
      / (docMatchCount env threshold doc cands pool : ℚ)
  else docSimilaritySum env doc cands pool

/-- The document as saved at the end of its comparison step: the same
record with the aggregate percentage set. -/
def withTotal (d : Document) (q : ℚ) : Document := { d with total_percentage := some q }

/-- Whether a Result is an UPLOADED match against document id `i`. -/
def uploadedAgainst (r : Result) (i : Nat) : Bool :=
  decide (r.match_type = MatchType.UPLOADED) && decide (r.match_id = MatchId.docId i)

/-- Concrete TEXT document used in witnesses and counterexamples. -/
def dA : Document := ⟨1, "docA", DocumentType.TEXT, "", "alpha raw", "alpha", some "sk", none⟩

/-- Second concrete TEXT document. -/
def dB : Document := ⟨2, "docB", DocumentType.TEXT, "", "beta raw", "beta", some "sk", none⟩

/-- A below-threshold engine output (score 0.3). -/
def simLow : ComparisonOutput := ⟨⟨3/10, [(0, 4)]⟩⟩

/-- An above-threshold engine output (score 0.8). -/
def simAB : ComparisonOutput := ⟨⟨8/10, [(0, 2)]⟩⟩

/-- An above-threshold engine output for the reverse direction (score 0.7). -/
def simBA : ComparisonOutput := ⟨⟨7/10, [(1, 3)]⟩⟩

/-- An above-threshold corpus engine output (score 0.8). -/
def simCorp : ComparisonOutput := ⟨⟨8/10, [(2, 5)]⟩⟩

/-- A concrete corpus candidate. -/
def corp1 : CorpusDoc := ⟨"e42", "corpus-doc", "corp"⟩

/-- Environment with no corpus candidates and a single successfully-scored
sibling pair at 0.3: dA against dB. -/
def envC1 : CompareEnv :=
  ⟨fun _ _ => [],
   fun s t => if s = "alpha" ∧ t = "beta" then some simLow else none⟩

/-- Environment of the spec scenario: one corpus candidate scoring 0.8 for
dA, and the sibling dB scoring 0.3. -/
def envS : CompareEnv :=
  ⟨fun s _ => if s = "alpha" then [corp1] else [],
   fun s t =>
     if s = "alpha" ∧ t = "corp" then some simCorp
     else if s = "alpha" ∧ t = "beta" then some simLow else none⟩

/-- Environment where both directions of the dA/dB sibling pair score
above the threshold 0.5. -/
def envC10 : CompareEnv :=
  ⟨fun _ _ => [],
   fun s t =>
     if s = "alpha" ∧ t = "beta" then some simAB
     else if s = "beta" ∧ t = "alpha" then some simBA else none⟩

/-- Environment where every engine call fails. -/
def envNone : CompareEnv := ⟨fun _ _ => [], fun _ _ => none⟩

/-- External collaborators of the ingestion stage: file text extraction,
language detection and text preprocessing.  `none` models a raised
exception inside the `try` block of `process_documents`. -/
structure IngestEnv where
  extract_text_from_file : String → Option String
  detect : String → Option String
  preprocess_text : String → String → Option String

/-- The `except` branch of the per-document `try` in `process_documents`:
a FILE document's raw text becomes empty (a TEXT document keeps its raw
text), and the normalized text is set to the remaining raw text.
`d` is the document state at the moment the exception is raised, so a
language already assigned inside the `try` is kept. -/
def downgrade (d : Document) : Document :=
  let raw := if d.dtype = DocumentType.FILE then "" else d.text_raw
  { d with text_raw := raw, text := raw }

/-- Whether the `try` block of the ingestion step runs to completion for
document `d`: extraction (for FILE documents), language detection and
preprocessing all succeed. -/
def ingestOk (env : IngestEnv) (d : Document) : Bool :=
  match (match d.dtype with
         | DocumentType.FILE => env.extract_text_from_file d.file
         | DocumentType.TEXT => some d.text_raw) with
  | none => false
  | some raw =>
    match env.detect raw with
    | none => false
    | some lang => (env.preprocess_text raw lang).isSome

/-- The per-document ingestion step of `process_documents`: extract the
file contents for FILE documents, detect the language, preprocess the raw
text; on any failure, fall into the `except` branch with the document
state mutated so far.  The returned document is the one saved. -/
def prepareDocument (env : IngestEnv) (d : Document) : Document :=
  match (match d.dtype with
         | DocumentType.FILE => env.extract_text_from_file d.file
         | DocumentType.TEXT => some d.text_raw) with
  | none => downgrade d
  | some raw =>
    let d1 := { d with text_raw := raw }
    match env.detect d1.text_raw with
    | none => downgrade d1
    | some lang =>
      let d2 := { d1 with language := some lang }
      match env.preprocess_text d2.text_raw lang with
      | none => downgrade d2
      | some txt => { d2 with text := txt }

/-- The ingestion phase over the whole batch: each document is prepared in
turn; a failure for one document never stops the loop. -/
def ingestPhase (env : IngestEnv) (docs : List Document) : List Document :=
  docs.map (prepareDocument env)

/-- Observable persistence and notification events of a processing run, in
program order. -/
inductive Event
  | statusSave (s : SubmissionStatus)
  | docSave (d : Document)
  | resultCreate (docId : Nat) (r : Result)
  | totalSave (d : Document)
  | mailSend (address : String) (submissionId : Nat)
deriving DecidableEq, Repr

/-- The status written by an event, when the event is a submission save. -/
def Event.statusOf : Event → Option SubmissionStatus
  | .statusSave s => some s
  | _ => none

/-- The list of status values persisted along a trace, in order. -/
def statusWrites (trace : List Event) : List SubmissionStatus :=
  trace.filterMap Event.statusOf

/-- The documents persisted by `totalSave` events of a trace, in order. -/
def totalSaves (trace : List Event) : List Document :=
  trace.filterMap (fun e => match e with | .totalSave d => some d | _ => none)

/-- Events of the comparison step for one document: the Result creations
in loop order, then the save of the document carrying the rounded total. -/
def compareDocEvents (env : CompareEnv) (threshold : ℚ) (similar_count : Nat)
    (round_factor : ℚ) (documents : List Document) (doc : Document) :
    List Event :=
  let oc := compareDoc env threshold similar_count round_factor documents doc
  oc.results.map (Event.resultCreate doc.id)
    ++ [Event.totalSave { doc with total_percentage := some oc.total_percentage }]

/-- Events of the whole comparison phase, one document after the other. -/
def comparePhaseEvents (env : CompareEnv) (threshold : ℚ)
    (similar_count round_decimal_places : Nat) (documents : List Document) :
    List Event :=
  let round_factor : ℚ := (10 : ℚ) ^ round_decimal_places
  documents.flatMap
    (compareDocEvents env threshold similar_count round_factor documents)

/-- All external collaborators of `process_documents`. -/
structure ProcEnv where
  ingest : IngestEnv
  cmp : CompareEnv
  threshold : ℚ

/-- `process_documents(submission_id)` as the trace of its persistence and
notification events.  An unresolvable id returns silently with no event.
Otherwise: save status PROCESSING; prepare and save each document; run
`compare_documents` over the prepared batch (with `similar_count=10`,
`round_decimal_places=2`); save status PROCESSED; finally send the
completion mail when the submission has an email address. -/
def process_documents (env : ProcEnv) (lookup : Nat → Option Submission)
    (submission_id : Nat) : List Event :=
  match lookup submission_id with
  | none => []
  | some submission =>
    let docs2 := ingestPhase env.ingest submission.documents
    Event.statusSave SubmissionStatus.PROCESSING
      :: (docs2.map Event.docSave
          ++ comparePhaseEvents env.cmp env.threshold 10 2 docs2
          ++ [Event.statusSave SubmissionStatus.PROCESSED]
          ++ (match submission.email with
              | none => []
              | some a => [Event.mailSend a submission.id]))


/-- Ingestion environment where every collaborator succeeds. -/
def ingestOkEnv : IngestEnv :=
  ⟨fun _ => some "filetext", fun _ => some "sk", fun t _ => some t⟩

/-- Ingestion environment whose language detection fails. -/
def ingestFailEnv : IngestEnv :=
  ⟨fun _ => some "filetext", fun _ => none, fun t _ => some t⟩

/-- A concrete FILE document. -/
def dF : Document := ⟨3, "docF", DocumentType.FILE, "f.pdf", "orig raw", "orig", none, none⟩

/-- A concrete pending submission with a contact address owning one document. -/
def sub1 : Submission := ⟨5, SubmissionStatus.PENDING, some "user@example.com", [dA]⟩

/-- A lookup resolving only id 5, to `sub1`. -/
def lookup1 : Nat → Option Submission := fun n => if n = 5 then some sub1 else none

/-- A concrete processing environment. -/
def envP : ProcEnv := ⟨ingestOkEnv, envC1, 1/2⟩

/-- Characterization of the corpus loop as a fold: starting from any
accumulator it adds the sum of the successfully-scored candidate scores,
counts the above-threshold ones, and appends the expected CORPUS Results. -/
theorem foldl_corpusStep (env : CompareEnv) (threshold round_factor : ℚ)
    (doc : Document) (l : List CorpusDoc) (st : LoopState) :
    l.foldl (corpusStep env threshold round_factor doc) st =
      ⟨st.result_similarity + (scoresOf (corpusScores env doc l)).sum,
       st.compared_count + matchCount threshold (scoresOf (corpusScores env doc l)),
       st.results ++ expectedCorpusResults env threshold round_factor doc l⟩ := by
  induction l generalizing st with
  | nil => simp [corpusScores, scoresOf, expectedCorpusResults, matchCount]
  | cons c cs ih =>
    simp only [List.foldl_cons]
    rw [ih]
    cases h : env.text_comparison doc.text c.text_preprocessed with
    | none =>
      simp [corpusStep, h, corpusScores, scoresOf, expectedCorpusResults, matchCount]
    | some sim =>
      by_cases hs : sim.first_to_second.similarity > threshold
      · simp [corpusStep, h, hs, corpusScores, scoresOf, expectedCorpusResults,
          matchCount, List.countP_cons, LoopState.mk.injEq]
        exact ⟨by ring, by omega⟩
      · simp [corpusStep, h, hs, corpusScores, scoresOf, expectedCorpusResults,
          matchCount, List.countP_cons, LoopState.mk.injEq]
        ring

/-- Characterization of the sibling loop as a fold, mirroring
`foldl_corpusStep` for the UPLOADED direction. -/
theorem foldl_userStep (env : CompareEnv) (threshold round_factor : ℚ)
    (doc : Document) (l : List Document) (st : LoopState) :
    l.foldl (userStep env threshold round_factor doc) st =
      ⟨st.result_similarity + (scoresOf (siblingScores env doc l)).sum,
       st.compared_count + matchCount threshold (scoresOf (siblingScores env doc l)),
       st.results ++ expectedUserResults env threshold round_factor doc l⟩ := by
  induction l generalizing st with
  | nil => simp [siblingScores, scoresOf, expectedUserResults, matchCount]
  | cons u us ih =>
    simp only [List.foldl_cons]
    rw [ih]
    cases h : env.text_comparison doc.text u.text with
    | none =>
      simp [userStep, h, siblingScores, scoresOf, expectedUserResults, matchCount]
    | some sim =>
      by_cases hs : sim.first_to_second.similarity > threshold
      · simp [userStep, h, hs, siblingScores, scoresOf, expectedUserResults,
          matchCount, List.countP_cons, LoopState.mk.injEq]
        exact ⟨by ring, by omega⟩
      · simp [userStep, h, hs, siblingScores, scoresOf, expectedUserResults,
          matchCount, List.countP_cons, LoopState.mk.injEq]
        ring

/-- The Results created by `compareCore` are exactly the expected CORPUS
Results followed by the expected UPLOADED Results. -/
theorem compareCore_results (env : CompareEnv) (threshold round_factor : ℚ)
    (doc : Document) (candidates : List CorpusDoc) (pool : List Document) :
    (compareCore env threshold round_factor doc candidates pool).results =
      expectedCorpusResults env threshold round_factor doc candidates
        ++ expectedUserResults env threshold round_factor doc pool := by
  simp [compareCore, foldl_corpusStep, foldl_userStep]

/-- The total written by `compareCore`: the sum over all scored pairs,
divided by the above-threshold count only when that count is positive,
rounded up at `round_factor`. -/
theorem compareCore_total (env : CompareEnv) (threshold round_factor : ℚ)
    (doc : Document) (candidates : List CorpusDoc) (pool : List Document) :
    (compareCore env threshold round_factor doc candidates pool).total_percentage =
      ceilRound
        (if docMatchCount env threshold doc candidates pool > 0 then
          docSimilaritySum env doc candidates pool
            / (docMatchCount env threshold doc candidates pool : ℚ)
         else docSimilaritySum env doc candidates pool)
        round_factor := by
  simp [compareCore, foldl_corpusStep, foldl_userStep, docSimilaritySum,
    docMatchCount]


/-- Membership in the expected CORPUS Result list forces match_type CORPUS. -/
theorem result_mem_corpus {env : CompareEnv} {threshold round_factor : ℚ}
    {doc : Document} {l : List CorpusDoc} {r : Result}
    (h : r ∈ expectedCorpusResults env threshold round_factor doc l) :
    r.match_type = MatchType.CORPUS := by
  simp only [expectedCorpusResults, List.mem_filterMap] at h
  obtain ⟨c, _, hc⟩ := h
  cases htc : env.text_comparison doc.text c.text_preprocessed with
  | none => rw [htc] at hc; cases hc
  | some sim =>
    rw [htc] at hc
    have hc2 : (if sim.first_to_second.similarity > threshold
        then some (corpusResultOf round_factor c sim) else none) = some r := hc
    by_cases hs : sim.first_to_second.similarity > threshold
    · rw [if_pos hs] at hc2
      cases hc2
      rfl
    · rw [if_neg hs] at hc2
      cases hc2

/-- Membership in the expected UPLOADED Result list comes from a sibling of
the pool scored above the threshold, and the Result is built from it. -/
theorem result_mem_user {env : CompareEnv} {threshold round_factor : ℚ}
    {doc : Document} {l : List Document} {r : Result}
    (h : r ∈ expectedUserResults env threshold round_factor doc l) :
    ∃ u ∈ l, ∃ sim, env.text_comparison doc.text u.text = some sim
      ∧ sim.first_to_second.similarity > threshold
      ∧ r = userResultOf round_factor u sim := by
  simp only [expectedUserResults, List.mem_filterMap] at h
  obtain ⟨u, hu, hc⟩ := h
  cases htc : env.text_comparison doc.text u.text with
  | none => rw [htc] at hc; cases hc
  | some sim =>
    rw [htc] at hc
    have hc2 : (if sim.first_to_second.similarity > threshold
        then some (userResultOf round_factor u sim) else none) = some r := hc
    by_cases hs : sim.first_to_second.similarity > threshold
    · rw [if_pos hs] at hc2
      cases hc2
      exact ⟨u, hu, sim, htc, hs, rfl⟩
    · rw [if_neg hs] at hc2
      cases hc2

/-- Removing a document whose id appears in none of `l1` removes exactly
the explicit occurrence in the middle. -/
theorem removeFirst_append_of_ne (l1 l2 : List Document) (d : Document)
    (h : ∀ x ∈ l1, x.id ≠ d.id) :
    removeFirst (l1 ++ d :: l2) d = l1 ++ l2 := by
  induction l1 with
  | nil => simp [removeFirst]
  | cons x xs ih =>
    have hx : ¬ (x.id = d.id) := h x (by simp)
    simp only [List.cons_append, removeFirst, if_neg hx, List.append_eq]
    rw [ih (fun y hy => h y (by simp [hy]))]

/-- C1 (counterexample): with threshold 0.5 and a single successfully-scored
sibling pair at 0.3, no score exceeds the threshold (`matchCount = 0`), so
the claim predicts a stored total of 0; the code keeps the undivided sum
and stores 0.3. -/
theorem belowThreshold_total_not_zeroed :
    docMatchCount envC1 (1/2) dA (envC1.find_similar dA.text 10)
        (removeFirst [dA, dB] dA) = 0
    ∧ (compareDoc envC1 (1/2) 10 100 [dA, dB] dA).total_percentage = 3/10
    ∧ (compareDoc envC1 (1/2) 10 100 [dA, dB] dA).total_percentage ≠ 0 := by
  refine ⟨?_, ?_, ?_⟩
  · simp [docMatchCount, envC1, dA, dB, removeFirst, corpusScores, siblingScores,
      scoresOf, matchCount, simLow]
    norm_num
  · simp [compareDoc, compareCore, envC1, dA, dB, removeFirst, corpusStep,
      userStep, simLow, ceilRound]
    norm_num
  · simp [compareDoc, compareCore, envC1, dA, dB, removeFirst, corpusStep,
      userStep, simLow, ceilRound]
    norm_num

/-- C1 (amended): the code's aggregate is the sum of all successfully-scored
pair scores, divided by the count of strictly-above-threshold pairs when
that count is positive, and left undivided otherwise; a document with no
successfully-scored pair stores 0; the 0.8-corpus/0.3-sibling scenario at
threshold 0.5 stores 1.10. -/
theorem compareDoc_total_formula :
    (∀ (env : CompareEnv) (threshold : ℚ) (similar_count : Nat)
        (round_factor : ℚ) (docs : List Document) (doc : Document),
      (compareDoc env threshold similar_count round_factor docs doc).total_percentage =
        ceilRound (codeAverage env threshold similar_count docs doc) round_factor)
    ∧ (∀ (env : CompareEnv) (threshold : ℚ) (similar_count : Nat)
        (round_factor : ℚ) (docs : List Document) (doc : Document),
        corpusScores env doc (env.find_similar doc.text similar_count) = [] →
        siblingScores env doc (removeFirst docs doc) = [] →
        (compareDoc env threshold similar_count round_factor docs doc).total_percentage = 0)
    ∧ (compareDoc envS (1/2) 10 100 [dA, dB] dA).total_percentage = 11/10 := by
  refine ⟨?_, ?_, ?_⟩
  · intro env threshold similar_count round_factor docs doc
    rw [compareDoc, compareCore_total, codeAverage]
  · intro env threshold similar_count round_factor docs doc h1 h2
    rw [compareDoc, compareCore_total]
    simp [docSimilaritySum, docMatchCount, h1, h2, scoresOf, matchCount, ceilRound]
  · simp [compareDoc, compareCore, envS, dA, dB, corp1, removeFirst, corpusStep,
      userStep, simCorp, simLow, ceilRound]
    norm_num

/-- Witness for C1 (amended): an environment where every pair fails to
score yields a stored total of 0. -/
theorem compareDoc_total_formula_witness :
    (compareDoc envNone (1/2) 10 100 [dA, dB] dA).total_percentage = 0 :=
  compareDoc_total_formula.2.1 envNone (1/2) 10 100 [dA, dB] dA
    (by simp [corpusScores, envNone])
    (by simp [siblingScores, envNone, removeFirst, dA, dB])

/-- C2: the Results created for a document are exactly one per
successfully-scored pair strictly above the threshold — corpus candidates
first with match_type CORPUS, then siblings with match_type UPLOADED —
each carrying the match id and name, percentage
`ceil(score * 10^p) / 10^p`, and the intervals on the document's side;
pairs at or below the threshold create none. -/
theorem compareDoc_results_exact :
    ∀ (env : CompareEnv) (threshold : ℚ) (similar_count : Nat) (p : Nat)
      (docs : List Document) (doc : Document),
      (compareDoc env threshold similar_count ((10:ℚ)^p) docs doc).results =
        expectedCorpusResults env threshold ((10:ℚ)^p) doc
          (env.find_similar doc.text similar_count)
        ++ expectedUserResults env threshold ((10:ℚ)^p) doc
          (removeFirst docs doc) := by
  intro env threshold similar_count p docs doc
  rw [compareDoc, compareCore_results]

/-- C3: a pair for which the similarity engine fails contributes nothing:
deleting the failing corpus candidate (or failing sibling) from its list
leaves the whole outcome of the document's comparison — sum, count,
Results and stored total — unchanged, and the rest of the list is still
processed. -/
theorem failed_pair_contributes_nothing :
    ∀ (env : CompareEnv) (threshold round_factor : ℚ) (doc : Document),
      (∀ (c : CorpusDoc) (cl1 cl2 : List CorpusDoc) (pool : List Document),
        env.text_comparison doc.text c.text_preprocessed = none →
        compareCore env threshold round_factor doc (cl1 ++ c :: cl2) pool
          = compareCore env threshold round_factor doc (cl1 ++ cl2) pool)
      ∧ (∀ (u : Document) (cands : List CorpusDoc) (pl1 pl2 : List Document),
        env.text_comparison doc.text u.text = none →
        compareCore env threshold round_factor doc cands (pl1 ++ u :: pl2)
          = compareCore env threshold round_factor doc cands (pl1 ++ pl2)) := by
  intro env threshold round_factor doc
  constructor
  · intro c cl1 cl2 pool h
    simp [compareCore, foldl_corpusStep, foldl_userStep, corpusScores,
      expectedCorpusResults, List.filterMap_append, List.filterMap_cons, h,
      corpusStep, userStep]
  · intro u cands pl1 pl2 h
    simp [compareCore, foldl_corpusStep, foldl_userStep, siblingScores,
      expectedUserResults, List.filterMap_append, List.filterMap_cons, h,
      corpusStep, userStep]

/-- Witness for C3: a concrete failing corpus pair and a concrete failing
sibling pair are both dropped without changing the outcome. -/
theorem failed_pair_contributes_nothing_witness :
    compareCore envNone (1/2) 100 dA [corp1] [] = compareCore envNone (1/2) 100 dA [] []
    ∧ compareCore envNone (1/2) 100 dA [] [dB] = compareCore envNone (1/2) 100 dA [] [] :=
  ⟨(failed_pair_contributes_nothing envNone (1/2) 100 dA).1 corp1 [] [] []
      (by simp [envNone]),
   (failed_pair_contributes_nothing envNone (1/2) 100 dA).2 dB [] [] []
      (by simp [envNone])⟩


/-- The `totalSave` events of an iterated comparison phase persist, once
per processed document in order, the document with its stored total. -/
theorem totalSaves_comparePhase (env : CompareEnv) (threshold round_factor : ℚ)
    (similar_count : Nat) (batch l : List Document) :
    totalSaves (l.flatMap (compareDocEvents env threshold similar_count round_factor batch))
      = l.map (fun d => withTotal d
          (compareDoc env threshold similar_count round_factor batch d).total_percentage) := by
  induction l with
  | nil => simp [totalSaves]
  | cons d ds ih =>
    simp only [List.flatMap_cons, totalSaves, List.filterMap_append] at ih ⊢
    rw [ih]
    simp [compareDocEvents, List.filterMap_append, List.filterMap_map, Function.comp,
      withTotal]

/-- C5: when ingestion fails for a document, the document is downgraded
instead of aborting the run: a FILE document's raw text becomes empty
while a TEXT document keeps its raw text, the normalized text equals the
remaining raw text, and every other document of the batch is still
processed. -/
theorem ingest_failure_downgrades (env : IngestEnv) (d : Document)
    (h : ingestOk env d = false) :
    (prepareDocument env d).text_raw
        = (if d.dtype = DocumentType.FILE then "" else d.text_raw)
    ∧ (prepareDocument env d).text = (prepareDocument env d).text_raw
    ∧ ∀ l1 l2 : List Document, ingestPhase env (l1 ++ d :: l2)
        = ingestPhase env l1 ++ prepareDocument env d :: ingestPhase env l2 := by
  refine ⟨?_, ?_, fun l1 l2 => by simp [ingestPhase]⟩ <;>
  · cases hty : d.dtype with
    | FILE =>
      cases hex : env.extract_text_from_file d.file with
      | none => simp [prepareDocument, hty, hex, downgrade]
      | some raw =>
        cases hdet : env.detect raw with
        | none => simp [prepareDocument, hty, hex, hdet, downgrade]
        | some lang =>
          cases hpre : env.preprocess_text raw lang with
          | none => simp [prepareDocument, hty, hex, hdet, hpre, downgrade]
          | some txt =>
            exfalso
            simp [ingestOk, hty, hex, hdet, hpre] at h
    | TEXT =>
      cases hdet : env.detect d.text_raw with
      | none => simp [prepareDocument, hty, hdet, downgrade]
      | some lang =>
        cases hpre : env.preprocess_text d.text_raw lang with
        | none => simp [prepareDocument, hty, hdet, hpre, downgrade]
        | some txt =>
          exfalso
          simp [ingestOk, hty, hdet, hpre] at h

/-- Witness for C5: a FILE document whose language detection fails is
saved with empty raw text equal to its normalized text. -/
theorem ingest_failure_downgrades_witness :
    ingestOk ingestFailEnv dF = false
    ∧ (prepareDocument ingestFailEnv dF).text_raw
        = (if dF.dtype = DocumentType.FILE then "" else dF.text_raw)
    ∧ (prepareDocument ingestFailEnv dF).text = (prepareDocument ingestFailEnv dF).text_raw :=
  ⟨by simp [ingestOk, ingestFailEnv, dF],
   (ingest_failure_downgrades ingestFailEnv dF (by simp [ingestOk, ingestFailEnv, dF])).1,
   (ingest_failure_downgrades ingestFailEnv dF (by simp [ingestOk, ingestFailEnv, dF])).2.1⟩

/-- C6: a submission id that does not resolve makes `process_documents`
return silently, with no persisted event at all: no status transition, no
document save, no Result creation, no notification. -/
theorem unknown_submission_silent (env : ProcEnv) (lookup : Nat → Option Submission)
    (submission_id : Nat) (h : lookup submission_id = none) :
    process_documents env lookup submission_id = [] := by
  simp [process_documents, h]

/-- Witness for C6: id 7 does not resolve under `lookup1`, and the run
produces no event. -/
theorem unknown_submission_silent_witness :
    process_documents envP lookup1 7 = [] :=
  unknown_submission_silent envP lookup1 7 (by simp [lookup1])

/-- C7: each document of the batch is persisted exactly once by the
comparison step, in batch order, carrying
`ceil(average * 10^p) / 10^p` as its aggregate percentage — both in the
returned documents and in the `totalSave` events of the phase. -/
theorem total_percentage_written_once :
    ∀ (env : CompareEnv) (threshold : ℚ) (similar_count : Nat) (p : Nat)
      (docs : List Document),
      ((compare_documents env threshold similar_count p docs).map Prod.fst
        = docs.map (fun d => withTotal d
            (ceilRound (codeAverage env threshold similar_count docs d) ((10:ℚ)^p))))
      ∧ totalSaves (comparePhaseEvents env threshold similar_count p docs)
        = docs.map (fun d => withTotal d
            (ceilRound (codeAverage env threshold similar_count docs d) ((10:ℚ)^p))) := by
  intro env threshold similar_count p docs
  constructor
  · simp only [compare_documents, List.map_map]
    refine List.map_congr_left ?_
    intro d _
    simp only [Function.comp, withTotal]
    rw [compareDoc, compareCore_total, codeAverage]
  · rw [comparePhaseEvents, totalSaves_comparePhase]
    refine List.map_congr_left ?_
    intro d _
    simp only [withTotal]
    rw [compareDoc, compareCore_total, codeAverage]


/-- Every event of the comparison phase is a Result creation or a document
total save: never a status write, never a mail dispatch. -/
theorem comparePhase_event_shapes (env : CompareEnv) (threshold : ℚ)
    (similar_count round_decimal_places : Nat) (docs : List Document) :
    ∀ e ∈ comparePhaseEvents env threshold similar_count round_decimal_places docs,
      e.statusOf = none ∧ ∀ a i, e ≠ Event.mailSend a i := by
  intro e he
  simp only [comparePhaseEvents, List.mem_flatMap, compareDocEvents,
    List.mem_append, List.mem_map, List.mem_singleton] at he
  obtain ⟨d, _, he⟩ := he
  rcases he with ⟨r, _, rfl⟩ | rfl
  · exact ⟨rfl, fun a i => by simp⟩
  · exact ⟨rfl, fun a i => by simp⟩

/-- C4: a run that resolves its submission persists status PROCESSING
first, before any document work, persists PROCESSED right after the
comparison phase, writes no other status, and its status writes are
monotonically non-decreasing from PENDING through the three-state order —
whatever the per-document outcomes were. -/
theorem run_status_lifecycle (env : ProcEnv) (lookup : Nat → Option Submission)
    (submission_id : Nat) (sub : Submission) (h : lookup submission_id = some sub) :
    (∃ work,
      process_documents env lookup submission_id
        = Event.statusSave SubmissionStatus.PROCESSING :: (work
            ++ Event.statusSave SubmissionStatus.PROCESSED
            :: (match sub.email with
                | none => []
                | some a => [Event.mailSend a sub.id]))
      ∧ ∀ e ∈ work, e.statusOf = none)
    ∧ statusWrites (process_documents env lookup submission_id)
        = [SubmissionStatus.PROCESSING, SubmissionStatus.PROCESSED]
    ∧ (sub.status = SubmissionStatus.PENDING →
        List.Chain' (fun x y => x.rank ≤ y.rank)
          (sub.status :: statusWrites (process_documents env lookup submission_id))) := by
  have hshape : process_documents env lookup submission_id
      = Event.statusSave SubmissionStatus.PROCESSING
          :: ((ingestPhase env.ingest sub.documents).map Event.docSave
              ++ comparePhaseEvents env.cmp env.threshold 10 2
                  (ingestPhase env.ingest sub.documents)
            ++ Event.statusSave SubmissionStatus.PROCESSED
            :: (match sub.email with
                | none => []
                | some a => [Event.mailSend a sub.id])) := by
    simp [process_documents, h]
  have hwork : ∀ e ∈ (ingestPhase env.ingest sub.documents).map Event.docSave
      ++ comparePhaseEvents env.cmp env.threshold 10 2
          (ingestPhase env.ingest sub.documents), e.statusOf = none := by
    intro e he
    rcases List.mem_append.mp he with h1 | h2
    · obtain ⟨d, _, rfl⟩ := List.mem_map.mp h1
      rfl
    · exact (comparePhase_event_shapes _ _ _ _ _ e h2).1
  have hstatus : statusWrites (process_documents env lookup submission_id)
      = [SubmissionStatus.PROCESSING, SubmissionStatus.PROCESSED] := by
    rw [hshape]
    simp only [statusWrites, List.filterMap_cons, List.filterMap_append,
      List.filterMap_eq_nil_iff.mpr hwork]
    cases sub.email <;> simp [Event.statusOf]
  refine ⟨⟨_, hshape, hwork⟩, hstatus, fun hpend => ?_⟩
  rw [hstatus, hpend]
  simp [SubmissionStatus.rank]

/-- Witness for C4: the concrete run over `sub1` writes exactly
PROCESSING then PROCESSED. -/
theorem run_status_lifecycle_witness :
    statusWrites (process_documents envP lookup1 5)
      = [SubmissionStatus.PROCESSING, SubmissionStatus.PROCESSED] :=
  (run_status_lifecycle envP lookup1 5 sub1 (by simp [lookup1])).2.1

/-- C9: the completion mail event exists exactly when the submission has a
contact address, references the submission id, and only ever occurs after
the PROCESSED status has been persisted — every earlier event is not a
mail dispatch, so a notification failure cannot undo the committed
status. -/
theorem notify_follows_processed (env : ProcEnv) (lookup : Nat → Option Submission)
    (submission_id : Nat) (sub : Submission) (h : lookup submission_id = some sub) :
    (∃ pre,
      process_documents env lookup submission_id
        = pre ++ Event.statusSave SubmissionStatus.PROCESSED
            :: (match sub.email with
                | none => []
                | some a => [Event.mailSend a sub.id])
      ∧ ∀ e ∈ pre, ∀ a i, e ≠ Event.mailSend a i)
    ∧ ∀ a i, Event.mailSend a i ∈ process_documents env lookup submission_id
        ↔ sub.email = some a ∧ i = sub.id := by
  have hshape : process_documents env lookup submission_id
      = (Event.statusSave SubmissionStatus.PROCESSING
          :: ((ingestPhase env.ingest sub.documents).map Event.docSave
              ++ comparePhaseEvents env.cmp env.threshold 10 2
                  (ingestPhase env.ingest sub.documents)))
          ++ Event.statusSave SubmissionStatus.PROCESSED
          :: (match sub.email with
              | none => []
              | some a => [Event.mailSend a sub.id]) := by
    simp [process_documents, h]
  have hpre : ∀ e ∈ Event.statusSave SubmissionStatus.PROCESSING
      :: ((ingestPhase env.ingest sub.documents).map Event.docSave
          ++ comparePhaseEvents env.cmp env.threshold 10 2
              (ingestPhase env.ingest sub.documents)),
      ∀ a i, e ≠ Event.mailSend a i := by
    intro e he a i
    rcases List.mem_cons.mp he with rfl | he
    · simp
    · rcases List.mem_append.mp he with h1 | h2
      · obtain ⟨d, _, rfl⟩ := List.mem_map.mp h1
        simp
      · exact (comparePhase_event_shapes _ _ _ _ _ e h2).2 a i
  refine ⟨⟨_, hshape, hpre⟩, fun a i => ?_⟩
  rw [hshape]
  constructor
  · intro hin
    rcases List.mem_append.mp hin with h1 | h2
    · exact absurd rfl (hpre _ h1 a i)
    · rcases List.mem_cons.mp h2 with heq | h3
      · exact absurd heq (by simp)
      · cases he : sub.email with
        | none =>
          rw [he] at h3
          simp at h3
        | some a0 =>
          rw [he] at h3
          simp only [List.mem_singleton, Event.mailSend.injEq] at h3
          exact ⟨by rw [h3.1], h3.2⟩
  · rintro ⟨hemail, rfl⟩
    refine List.mem_append.mpr (Or.inr (List.mem_cons.mpr (Or.inr ?_)))
    rw [hemail]
    simp

/-- Witness for C9: in the concrete run, the mail event for the stored
address and id 5 is present and characterized by `sub1`'s address. -/
theorem notify_follows_processed_witness :
    Event.mailSend "user@example.com" 5 ∈ process_documents envP lookup1 5
      ↔ sub1.email = some "user@example.com" ∧ 5 = sub1.id :=
  (notify_follows_processed envP lookup1 5 sub1 (by simp [lookup1])).2
    "user@example.com" 5


/-- In a batch whose document ids are distinct, a split around `d` gives
elements with ids different from `d.id` on both sides. -/
theorem nodup_ids_ne {docs : List Document} (hnd : (docs.map Document.id).Nodup)
    {s t : List Document} {d : Document} (hsplit : docs = s ++ d :: t) :
    (∀ x ∈ s, x.id ≠ d.id) ∧ (∀ x ∈ t, x.id ≠ d.id) := by
  subst hsplit
  rw [List.map_append, List.map_cons] at hnd
  obtain ⟨hn1, hn2, hdisj⟩ := List.nodup_append.mp hnd
  obtain ⟨hnotin, _⟩ := List.nodup_cons.mp hn2
  constructor
  · intro x hx heq
    exact hdisj (List.mem_map_of_mem _ hx)
      (by rw [heq]; exact List.mem_cons_self _ _)
  · intro x hx heq
    exact hnotin (heq ▸ List.mem_map_of_mem _ hx)

/-- C8: in a batch with distinct document ids, the sibling pool of `doc`
is exactly the batch with `doc`'s own occurrence removed, every sibling
has a different id, and no UPLOADED Result created for `doc` ever carries
`doc`'s own id. -/
theorem no_self_comparison (docs : List Document) (doc : Document)
    (hnd : (docs.map Document.id).Nodup) (hmem : doc ∈ docs) :
    (∃ l1 l2, docs = l1 ++ doc :: l2 ∧ removeFirst docs doc = l1 ++ l2)
    ∧ (∀ d ∈ removeFirst docs doc, d.id ≠ doc.id)
    ∧ (∀ (env : CompareEnv) (threshold round_factor : ℚ) (similar_count : Nat),
        ∀ r ∈ (compareDoc env threshold similar_count round_factor docs doc).results,
          r.match_type = MatchType.UPLOADED → r.match_id ≠ MatchId.docId doc.id) := by
  obtain ⟨l1, l2, rfl⟩ := List.append_of_mem hmem
  obtain ⟨h1, h2⟩ := nodup_ids_ne hnd rfl
  have hrm : removeFirst (l1 ++ doc :: l2) doc = l1 ++ l2 :=
    removeFirst_append_of_ne l1 l2 doc h1
  have hside : ∀ d ∈ removeFirst (l1 ++ doc :: l2) doc, d.id ≠ doc.id := by
    rw [hrm]
    intro d hd
    rcases List.mem_append.mp hd with hd | hd
    · exact h1 d hd
    · exact h2 d hd
  refine ⟨⟨l1, l2, rfl, hrm⟩, hside, ?_⟩
  intro env threshold round_factor similar_count r hr hup
  rw [compareDoc, compareCore_results] at hr
  rcases List.mem_append.mp hr with hc | hu
  · rw [result_mem_corpus hc] at hup
    exact absurd hup (by decide)
  · obtain ⟨u, hu2, sim, _, _, rfl⟩ := result_mem_user hu
    have hne : u.id ≠ doc.id := hside u hu2
    simp [userResultOf, hne]

/-- Witness for C8: with both sibling directions above threshold, the
single UPLOADED Result created for `dA` points at `dB`, not at `dA`. -/
theorem no_self_comparison_witness :
    (userResultOf 100 dB simAB).match_id ≠ MatchId.docId dA.id :=
  (no_self_comparison [dA, dB] dA (by simp [dA, dB]) (by simp)).2.2
    envC10 (1/2) 100 10 (userResultOf 100 dB simAB)
    (by
      simp [compareDoc, compareCore_results, expectedCorpusResults,
        expectedUserResults, envC10, dA, dB, removeFirst, simAB]
      norm_num)
    (by simp [userResultOf])


/-- The expected UPLOADED Result list distributes over pool concatenation. -/
theorem expectedUserResults_append (env : CompareEnv) (threshold round_factor : ℚ)
    (doc : Document) (l l2 : List Document) :
    expectedUserResults env threshold round_factor doc (l ++ l2)
      = expectedUserResults env threshold round_factor doc l
        ++ expectedUserResults env threshold round_factor doc l2 := by
  simp [expectedUserResults, List.filterMap_append]

/-- No CORPUS Result survives a filter looking for UPLOADED matches. -/
theorem filter_uploaded_corpus_nil (env : CompareEnv) (threshold round_factor : ℚ)
    (doc : Document) (l : List CorpusDoc) (i : Nat) :
    (expectedCorpusResults env threshold round_factor doc l).filter
      (fun r => uploadedAgainst r i) = [] := by
  rw [List.filter_eq_nil_iff]
  intro r hr
  simp [uploadedAgainst, result_mem_corpus hr]

/-- UPLOADED Results of a pool whose ids all differ from `i` never match
a filter for UPLOADED results against id `i`. -/
theorem filter_uploaded_user_nil (env : CompareEnv) (threshold round_factor : ℚ)
    (doc : Document) (l : List Document) (i : Nat) (h : ∀ u ∈ l, u.id ≠ i) :
    (expectedUserResults env threshold round_factor doc l).filter
      (fun r => uploadedAgainst r i) = [] := by
  rw [List.filter_eq_nil_iff]
  intro r hr
  obtain ⟨u, hu, sim, _, _, rfl⟩ := result_mem_user hr
  simp [uploadedAgainst, userResultOf, h u hu]

/-- C10: two distinct documents of one batch are scored once in each
direction during the run — each direction while its own document is
processed, entering that document's scored-pair list — and when both
directions exceed the threshold, each document receives exactly one
UPLOADED Result against the other, built from its own direction's score. -/
theorem sibling_pair_scored_both_directions
    (env : CompareEnv) (threshold round_factor : ℚ) (similar_count : Nat)
    (l1 l2 l3 : List Document) (a b : Document) (oab oba : ComparisonOutput)
    (hnd : ((l1 ++ a :: (l2 ++ b :: l3)).map Document.id).Nodup)
    (hab : env.text_comparison a.text b.text = some oab)
    (hba : env.text_comparison b.text a.text = some oba)
    (habove : oab.first_to_second.similarity > threshold)
    (hbabove : oba.first_to_second.similarity > threshold) :
    (oab ∈ siblingScores env a (removeFirst (l1 ++ a :: (l2 ++ b :: l3)) a)
      ∧ oba ∈ siblingScores env b (removeFirst (l1 ++ a :: (l2 ++ b :: l3)) b))
    ∧ (compareDoc env threshold similar_count round_factor
        (l1 ++ a :: (l2 ++ b :: l3)) a).results.filter
          (fun r => uploadedAgainst r b.id) = [userResultOf round_factor b oab]
    ∧ (compareDoc env threshold similar_count round_factor
        (l1 ++ a :: (l2 ++ b :: l3)) b).results.filter
          (fun r => uploadedAgainst r a.id) = [userResultOf round_factor a oba] := by
  have hsplitB : l1 ++ a :: (l2 ++ b :: l3) = (l1 ++ a :: l2) ++ b :: l3 := by simp
  obtain ⟨hA1, hAr⟩ := @nodup_ids_ne _ hnd l1 (l2 ++ b :: l3) a rfl
  obtain ⟨hB1, hB3⟩ := @nodup_ids_ne _ hnd (l1 ++ a :: l2) l3 b hsplitB
  have hA2 : ∀ x ∈ l2, x.id ≠ a.id := fun x hx => hAr x (by simp [hx])
  have hA3 : ∀ x ∈ l3, x.id ≠ a.id := fun x hx => hAr x (by simp [hx])
  have hBa : a.id ≠ b.id := hB1 a (by simp)
  have hB1' : ∀ x ∈ l1, x.id ≠ b.id := fun x hx => hB1 x (by simp [hx])
  have hB2 : ∀ x ∈ l2, x.id ≠ b.id := fun x hx => hB1 x (by simp [hx])
  have hrmA : removeFirst (l1 ++ a :: (l2 ++ b :: l3)) a = l1 ++ (l2 ++ b :: l3) :=
    removeFirst_append_of_ne l1 (l2 ++ b :: l3) a hA1
  have hrmB : removeFirst (l1 ++ a :: (l2 ++ b :: l3)) b = (l1 ++ a :: l2) ++ l3 := by
    rw [hsplitB]
    exact removeFirst_append_of_ne (l1 ++ a :: l2) l3 b hB1
  have hconsB : expectedUserResults env threshold round_factor a (b :: l3)
      = userResultOf round_factor b oab
          :: expectedUserResults env threshold round_factor a l3 := by
    simp [expectedUserResults, List.filterMap_cons, hab, habove]
  have hconsA : expectedUserResults env threshold round_factor b (a :: l2)
      = userResultOf round_factor a oba
          :: expectedUserResults env threshold round_factor b l2 := by
    simp [expectedUserResults, List.filterMap_cons, hba, hbabove]
  refine ⟨⟨?_, ?_⟩, ?_, ?_⟩
  · rw [hrmA]
    exact List.mem_filterMap.mpr ⟨b, by simp, hab⟩
  · rw [hrmB]
    exact List.mem_filterMap.mpr ⟨a, by simp, hba⟩
  · rw [compareDoc, compareCore_results, hrmA, List.filter_append,
      filter_uploaded_corpus_nil, expectedUserResults_append,
      expectedUserResults_append, List.filter_append, List.filter_append,
      filter_uploaded_user_nil env threshold round_factor a l1 b.id hB1',
      filter_uploaded_user_nil env threshold round_factor a l2 b.id hB2,
      hconsB, List.filter_cons_of_pos,
      filter_uploaded_user_nil env threshold round_factor a l3 b.id hB3]
    · simp
    · simp [uploadedAgainst, userResultOf]
  · rw [compareDoc, compareCore_results, hrmB, List.filter_append,
      filter_uploaded_corpus_nil, expectedUserResults_append,
      expectedUserResults_append, List.filter_append, List.filter_append,
      filter_uploaded_user_nil env threshold round_factor b l1 a.id
        (fun x hx => hA1 x (by simp [hx])),
      filter_uploaded_user_nil env threshold round_factor b l3 a.id hA3]
    rw [hconsA, List.filter_cons_of_pos,
      filter_uploaded_user_nil env threshold round_factor b l2 a.id hA2]
    · simp
    · simp [uploadedAgainst, userResultOf]

/-- Witness for C10: with dA and dB scoring 0.8 and 0.7 in the two
directions over threshold 0.5, dA's results filtered for UPLOADED matches
against dB are exactly one Result built from the dA-to-dB score. -/
theorem sibling_pair_scored_both_directions_witness :
    (compareDoc envC10 (1/2) 10 100 [dA, dB] dA).results.filter
        (fun r => uploadedAgainst r dB.id) = [userResultOf 100 dB simAB] :=
  (sibling_pair_scored_both_directions envC10 (1/2) 100 10 [] [] [] dA dB
    simAB simBA (by simp [dA, dB])
    (by simp [envC10, dA, dB])
    (by simp [envC10, dA, dB])
    (by norm_num [simAB])
    (by norm_num [simBA])).2.1

end Antiplag
